import Mathlib

/-!
Shallow embedding of `src/gpu_fractals.cpp` (interactive GPU fractal viewer).

Pure helper functions (`istreq`, `atoi`-style parsing, argument parsing,
viewport pan/zoom updates, iteration-cap updates, Newton root table,
screenshot export) are translated into Lean definitions; the effectful
parts of `main` (GLFW / GLAD / shader initialization) are modelled by
explicit success flags for each external call, with the stderr lines the
program would emit collected into a list.
-/

/-- ASCII lowercase conversion, as `std::tolower` behaves in the default
"C" locale on the characters this program compares. -/
def c_tolower (ch : Char) : Char :=
  if 'A' ≤ ch ∧ ch ≤ 'Z' then Char.ofNat (ch.toNat + 32) else ch

/-- The comparison loop of `istreq` (`for (i = 0; i < s1.length(); ++i)`):
on the first position where the lowercased characters differ it executes
`return false`; if the loop finishes without a mismatch, control reaches the
end of the function body, which contains no `return` statement, so the
returned value is undefined — modelled as `none`. -/
def istreqLoop : List Char → List Char → Option Bool
  | c1 :: t1, c2 :: t2 =>
      if c_tolower c1 ≠ c_tolower c2 then some false else istreqLoop t1 t2
  | _, _ => none

/-- `istreq(s1, s2)`: returns `false` when the lengths differ, `false` on the
first case-insensitive mismatch, and falls off the end of the function
(undefined return value, modelled as `none`) when the strings are equal up to
ASCII case. -/
def istreq (s1 s2 : String) : Option Bool :=
  if s1.length ≠ s2.length then some false
  else istreqLoop s1.data s2.data

/-- Modelled from the spec: the value `istreq` yields on its missing-return
control path (case-insensitively equal strings) is undefined in the source;
the spec documents that the CLI dispatch on the fractal-type argument works,
which requires that path to behave as `true`, so the dispatch used by
`parse_args` resolves it to `true`. -/
def istreq_eq (s1 s2 : String) : Bool :=
  (istreq s1 s2).getD true

/-- Digit-accumulation loop of `std::atoi`: consume decimal digits, stopping
at the first non-digit character. -/
def digitsVal : List Char → Int → Int
  | c :: t, acc =>
      if '0' ≤ c ∧ c ≤ '9' then digitsVal t (acc * 10 + ((c.toNat : Int) - 48))
      else acc
  | [], acc => acc

/-- `std::atoi`: skip leading whitespace, accept an optional sign, then read
a run of decimal digits (0 when there are none). -/
def atoiM (s : String) : Int :=
  let t := s.data.dropWhile
    (fun c => c = ' ' ∨ c = '\t' ∨ c = '\n' ∨ c = '\x0b' ∨ c = '\x0c' ∨ c = '\r')
  match t with
  | '-' :: rest => - digitsVal rest 0
  | '+' :: rest => digitsVal rest 0
  | _ => digitsVal t 0

/-- The fractal type selected on the command line. -/
inductive FractalType where
  | NEWTON
  | JULIA
  | MANDELBROT
  | INVALID
deriving DecidableEq

/-- `struct ParamsStruct`: iteration cap, Newton root count, Julia angle and
the viewport intervals. -/
@[ext]
structure ParamsStruct where
  niters : Int
  nroots : Int
  angle : ℝ
  xlim : ℝ × ℝ
  ylim : ℝ × ℝ

/-- The default member initializers of `ParamsStruct`. -/
noncomputable def defaultParams : ParamsStruct :=
  { niters := 40, nroots := 3, angle := Real.pi / 2, xlim := (-1, 1), ylim := (-1, 1) }

/-- The lines `usage(argv0, stream)` writes. -/
def usage (argv0 : String) : List String :=
  [ "Usage: " ++ argv0 ++ " TYPE [ OPTIONS ]",
    "    TYPE indicates the type of fractal to render. Admissible values are Newton, Mandelbrot and Julia.",
    "    According to the type of fractals, different options are available.",
    "    For Newton\x27s fractal the number of roots can be specified. If no option is given, the polynomial",
    "    used will be z^3 - 1 = 0.",
    "    For Julia\x27s set the rotation coefficient can be specified. If nothing is given, pi/2 is assumed.",
    "    For Mandelbrot\x27s set no option can be specified." ]

/-- Result of `parse_args`: the returned fractal type, the params structure
after any mutation, and the lines written to standard error. -/
structure ParseResult where
  type : FractalType
  params : ParamsStruct
  stderrLines : List String

/-- `parse_args(argc, argv, Params)`, with `argv` as a list of strings and
`std::atof` supplied as an environment function (its value is never
constrained by the claims). -/
noncomputable def parse_args (atof : String → ℝ) (argv : List String) : ParseResult :=
  if argv.length < 2 then
    ⟨.INVALID, defaultParams,
      "At least one argument is required." :: usage (argv.getD 0 "")⟩
  else
    let a1 := argv.getD 1 ""
    if istreq_eq a1 "Newton" then
      if argv.length > 2 then
        let n := atoiM (argv.getD 2 "")
        if n < 1 then
          ⟨.INVALID, { defaultParams with nroots := n },
            ["Number of roots must be greater than zero."]⟩
        else ⟨.NEWTON, { defaultParams with nroots := n }, []⟩
      else ⟨.NEWTON, defaultParams, []⟩
    else if istreq_eq a1 "Julia" then
      if argv.length > 2 then
        ⟨.JULIA, { defaultParams with angle := atof (argv.getD 2 "") }, []⟩
      else ⟨.JULIA, defaultParams, []⟩
    else if istreq_eq a1 "Mandelbrot" then
      ⟨.MANDELBROT, { defaultParams with xlim := (-2, 1), ylim := (-1.5, 1.5) }, []⟩
    else
      ⟨.INVALID, defaultParams,
        "Invalid fractal type." :: usage (argv.getD 0 "")⟩

/-- `SurfArea`: the (signed) area of the current viewport,
`(xlim[1] - xlim[0]) * (ylim[1] - ylim[0])`. -/
def surfArea (p : ParamsStruct) : ℝ :=
  (p.xlim.2 - p.xlim.1) * (p.ylim.2 - p.ylim.1)

/-- `UnitLength = sqrt(SurfArea)`. -/
noncomputable def unitLength (p : ParamsStruct) : ℝ :=
  Real.sqrt (surfArea p)

/-- The pan update performed while mouse button 1 is pressed:
`xlim[0] += dx*U/600; xlim[1] += dx*U/600; ylim[0] -= dy*U/600; ylim[1] -= dy*U/600`
with `U` the unit length computed from the viewport before the update. -/
noncomputable def pan (p : ParamsStruct) (dx dy : ℝ) : ParamsStruct :=
  { p with
    xlim := (p.xlim.1 + dx * unitLength p / 600, p.xlim.2 + dx * unitLength p / 600),
    ylim := (p.ylim.1 - dy * unitLength p / 600, p.ylim.2 - dy * unitLength p / 600) }

/-- The zoom update performed while mouse button 2 is pressed:
`xlim[1] += dy*U/600; xlim[0] -= dy*U/600; ylim[0] -= dy*U/600; ylim[1] += dy*U/600`. -/
noncomputable def zoom (p : ParamsStruct) (dy : ℝ) : ParamsStruct :=
  { p with
    xlim := (p.xlim.1 - dy * unitLength p / 600, p.xlim.2 + dy * unitLength p / 600),
    ylim := (p.ylim.1 - dy * unitLength p / 600, p.ylim.2 + dy * unitLength p / 600) }

/-- Keypad `+` handler: `niters += 10` with Shift held, `niters += 1` otherwise. -/
def incIters (n : Int) (shift : Bool) : Int :=
  if shift then n + 10 else n + 1

/-- Keypad `-` handler: `niters -= 10` (Shift) or `niters -= 1`, then
`if (niters < 0) niters = 0`. -/
def decIters (n : Int) (shift : Bool) : Int :=
  let m := if shift then n - 10 else n - 1
  if m < 0 then 0 else m

/-- The Newton root table: for `i = 0 .. nroots-1`,
`theta = 2*pi*(i/nroots)`, `Roots[2i] = cos(theta)`, `Roots[2i+1] = sin(theta)`. -/
noncomputable def newtonRoots (n : ℕ) : List (ℝ × ℝ) :=
  (List.range n).map
    (fun (i : ℕ) => (Real.cos (2 * Real.pi * ((i : ℝ) / (n : ℝ))),
                     Real.sin (2 * Real.pi * ((i : ℝ) / (n : ℝ)))))

/-- The screenshot sequence number as formatted by
`std::setfill('0') << std::setw(3)`: decimal digits, left-padded with zeros
to a minimum width of 3. -/
def pad3 (n : ℕ) : String :=
  let s := toString n
  if s.length < 3 then String.mk (List.replicate (3 - s.length) '0') ++ s else s

/-- The `(unsigned char)(v * 255.0f)` conversion applied to each exported
channel (truncation of the scaled value to an 8-bit byte). -/
def toByte (v : ℚ) : ℕ :=
  (⌊v * 255⌋).toNat % 256

/-- Flat index written by the export loop body:
`(TEX_SIZE - i - 1) * TEX_SIZE * 3 + j * 3 + k`. -/
def flatIdx (N : ℕ) (t : ℕ × ℕ × ℕ) : ℕ :=
  (N - t.1 - 1) * (N * 3) + t.2.1 * 3 + t.2.2

/-- Flat index read by the export loop body: `i * TEX_SIZE * 4 + j * 4 + k`. -/
def texIdx (N : ℕ) (t : ℕ × ℕ × ℕ) : ℕ :=
  t.1 * (N * 4) + t.2.1 * 4 + t.2.2

/-- Iteration space of the nested export loops:
`i = 0..TEX_SIZE-1`, `j = 0..TEX_SIZE-1`, `k = 0..2`. -/
def allTriples (N : ℕ) : List (ℕ × ℕ × ℕ) :=
  (List.range N).flatMap (fun i =>
    (List.range N).flatMap (fun j =>
      (List.range 3).map (fun k => (i, j, k))))

/-- The `CImage` buffer produced by the nested export loops from the raw
float texture readback `fimg` (buffer cells never written stay at their
initial value, modelled as 0). `TEX_SIZE` comes from a build-time define
that is not part of the sources, so it is kept as the parameter `N`. -/
def cImageOf (N : ℕ) (fimg : ℕ → ℚ) : ℕ → ℕ :=
  (allTriples N).foldl
    (fun buf t => Function.update buf (flatIdx N t) (toByte (fimg (texIdx N t))))
    (fun _ => 0)

/-- The `static` locals of `export_tex`: the screenshot counter `CurFrame`
and whether `raw_image` has been allocated. -/
structure ExportState where
  curFrame : ℕ
  allocated : Bool
deriving DecidableEq

/-- Observable effects of one `export_tex` call. -/
inductive ExportEvent where
  | stderrMsg (s : String)
  | pngWrite (name : String) (w h comp : ℕ) (data : ℕ → ℕ)

/-- `export_tex(Texture)`: allocate the export buffer on first use (on
allocation failure report to stderr and return, leaving the state
unchanged); otherwise build the file name from `CurFrame++`, flip/convert
the texture into `CImage` and write the PNG
(`stbi_write_png(name, TEX_SIZE, TEX_SIZE, 3, CImage, ...)`).
The success of `malloc` is the environment flag `allocOk`; `fimg` is the
texture readback `glGetTexImage` deposits into `FImage`. -/
def exportTex (N : ℕ) (st : ExportState) (allocOk : Bool) (fimg : ℕ → ℚ) :
    ExportState × List ExportEvent :=
  if st.allocated = false ∧ allocOk = false then
    (st, [.stderrMsg "Cannot export images."])
  else
    ({ curFrame := st.curFrame + 1, allocated := true },
     [.pngWrite ("Screenshot" ++ pad3 st.curFrame ++ ".png") N N 3 (cImageOf N fimg)])

/-- Shader object kinds distinguished by `check_compile_errors`. -/
inductive ShaderKind where
  | vertex
  | fragment
  | compute
  | program

/-- The `TypeStr` chosen in `check_compile_errors`. -/
def shaderTypeStr : ShaderKind → String
  | .vertex => "vertex shader"
  | .fragment => "fragment shader"
  | .compute => "compute shader"
  | .program => "shader program"

/-- Stderr lines written by `check_compile_errors` (empty on success; the
diagnostic header, separators and the driver-provided info log on failure). -/
def check_compile_errors (success : Bool) (kind : ShaderKind) (log : String) : List String :=
  if success then []
  else
    [ "Error compiling " ++ shaderTypeStr kind ++ ".",
      String.mk (List.replicate 58 '='),
      log,
      String.mk (List.replicate 58 '=') ]

/-- Success flags for the external calls `main` performs during startup,
plus the info log the driver would return for a failed compile/link. -/
structure MainEnv where
  glfwInitOk : Bool
  windowOk : Bool
  gladOk : Bool
  vshaderOk : Bool
  fshaderFileOk : Bool
  fshaderOk : Bool
  linkOk : Bool
  cshaderFileOk : Bool
  cshaderOk : Bool
  clinkOk : Bool
  shaderLog : String

/-- Whether `main` returns before the render loop (with the given code) or
reaches the render loop. -/
inductive MainOutcome where
  | earlyExit (code : Int)
  | renderLoop
deriving DecidableEq

/-- Exit code of the whole process: the early-exit code, or 0 when the
render loop is reached and later left by a normal window close. -/
def mainExitCode : MainOutcome → Int
  | .earlyExit c => c
  | .renderLoop => 0

/-- The startup sequence of `main`, transcribed in order: argument parsing,
`glfwInit`, window creation, GLAD loading (on failure the code prints
"Cannot initialize GLAD." but contains no `return`, so execution continues),
vertex shader compile, fragment shader file open, fragment shader compile,
program link, compute shader file open, compute shader compile, compute
program link; if all of these pass, the render loop is entered.
Returns the outcome together with all stderr lines written. -/
noncomputable def mainModel (atof : String → ℝ) (argv : List String) (env : MainEnv) :
    MainOutcome × List String :=
  let pr := parse_args atof argv
  if pr.type = FractalType.INVALID then (.earlyExit (-1), pr.stderrLines)
  else if env.glfwInitOk = false then
    (.earlyExit (-1), pr.stderrLines ++ ["Cannot initialize GLFW."])
  else if env.windowOk = false then
    (.earlyExit (-1), pr.stderrLines ++ ["Cannot initialize a window."])
  else
    let gladMsgs := if env.gladOk then [] else ["Cannot initialize GLAD."]
    let pre := pr.stderrLines ++ gladMsgs
    if env.vshaderOk = false then
      (.earlyExit (-1), pre ++ check_compile_errors false .vertex env.shaderLog)
    else if env.fshaderFileOk = false then
      (.earlyExit (-1), pre ++ ["Cannot open the compute shader."])
    else if env.fshaderOk = false then
      (.earlyExit (-1), pre ++ check_compile_errors false .fragment env.shaderLog)
    else if env.linkOk = false then
      (.earlyExit (-1), pre ++ check_compile_errors false .program env.shaderLog)
    else if env.cshaderFileOk = false then
      (.earlyExit (-1), pre ++ ["Cannot open the compute shader."])
    else if env.cshaderOk = false then
      (.earlyExit (-1), pre ++ check_compile_errors false .compute env.shaderLog)
    else if env.clinkOk = false then
      (.earlyExit (-1), pre ++ check_compile_errors false .program env.shaderLog)
    else (.renderLoop, pre)

/-- C6: for every iteration cap `n ≥ 0`, the keypad decrement yields
`max 0 (n - s)` where the step `s` is 1 without Shift and 10 with Shift,
so the cap never becomes negative, and the keypad increment yields `n + s`. -/
theorem iter_cap_update_clamped (n : Int) (shift : Bool) (h : 0 ≤ n) :
    decIters n shift = max 0 (n - (if shift then 10 else 1)) ∧
    0 ≤ decIters n shift ∧
    incIters n shift = n + (if shift then 10 else 1) := by
  refine ⟨?_, ?_, ?_⟩ <;> cases shift <;> simp [decIters, incIters] <;> omega

theorem iter_cap_update_clamped_witness :
    (0 : Int) ≤ 5 ∧
    (decIters 5 true = max 0 (5 - 10) ∧ 0 ≤ decIters 5 true ∧
      incIters 5 true = 5 + 10) :=
  ⟨by decide, by simpa using iter_cap_update_clamped 5 true (by decide)⟩

/-- C10: `istreq` does not return a value on every control path: on
strings that differ in length or in some character after ASCII lowering it
returns `false`, but on case-insensitively equal strings control falls off
the end of the function without a `return` (modelled as `none`), so the
claimed "defined boolean on every input" fails exactly on the inputs the
dispatch in `parse_args` relies on. -/
theorem istreq_missing_return :
    istreq "Newton" "Newton" = none ∧
    istreq "newton" "NEWTON" = none ∧
    istreq "Newton" "Julia" = some false ∧
    istreq "Newton" "NewtoX" = some false := by
  refine ⟨rfl, rfl, rfl, rfl⟩

/-- C8: when the export buffer has not been allocated yet and the
allocation fails, `export_tex` reports to standard error, writes no file,
leaves the screenshot counter (and the rest of its state) unchanged, and
returns normally. -/
theorem export_alloc_failure_skips (N frame : ℕ) (fimg : ℕ → ℚ) :
    exportTex N ⟨frame, false⟩ false fimg =
      (⟨frame, false⟩, [ExportEvent.stderrMsg "Cannot export images."]) ∧
    ∀ name w h c d,
      ExportEvent.pngWrite name w h c d ∉ (exportTex N ⟨frame, false⟩ false fimg).2 := by
  constructor
  · simp [exportTex]
  · intro name w h c d
    simp [exportTex]

theorem surfArea_pan (p : ParamsStruct) (dx dy : ℝ) :
    surfArea (pan p dx dy) = surfArea p := by
  show (p.xlim.2 + dx * unitLength p / 600 - (p.xlim.1 + dx * unitLength p / 600)) *
       (p.ylim.2 - dy * unitLength p / 600 - (p.ylim.1 - dy * unitLength p / 600)) =
       (p.xlim.2 - p.xlim.1) * (p.ylim.2 - p.ylim.1)
  ring

theorem unitLength_pan (p : ParamsStruct) (dx dy : ℝ) :
    unitLength (pan p dx dy) = unitLength p := by
  simp only [unitLength, surfArea_pan]

theorem pan_pan_inverse (p : ParamsStruct) (dx dy : ℝ) :
    pan (pan p dx dy) (-dx) (-dy) = p := by
  have hU := unitLength_pan p dx dy
  have hx1 : (pan (pan p dx dy) (-dx) (-dy)).xlim.1 = p.xlim.1 := by
    show (pan p dx dy).xlim.1 + (-dx) * unitLength (pan p dx dy) / 600 = p.xlim.1
    rw [hU]
    show p.xlim.1 + dx * unitLength p / 600 + (-dx) * unitLength p / 600 = p.xlim.1
    ring
  have hx2 : (pan (pan p dx dy) (-dx) (-dy)).xlim.2 = p.xlim.2 := by
    show (pan p dx dy).xlim.2 + (-dx) * unitLength (pan p dx dy) / 600 = p.xlim.2
    rw [hU]
    show p.xlim.2 + dx * unitLength p / 600 + (-dx) * unitLength p / 600 = p.xlim.2
    ring
  have hy1 : (pan (pan p dx dy) (-dx) (-dy)).ylim.1 = p.ylim.1 := by
    show (pan p dx dy).ylim.1 - (-dy) * unitLength (pan p dx dy) / 600 = p.ylim.1
    rw [hU]
    show p.ylim.1 - dy * unitLength p / 600 - (-dy) * unitLength p / 600 = p.ylim.1
    ring
  have hy2 : (pan (pan p dx dy) (-dx) (-dy)).ylim.2 = p.ylim.2 := by
    show (pan p dx dy).ylim.2 - (-dy) * unitLength (pan p dx dy) / 600 = p.ylim.2
    rw [hU]
    show p.ylim.2 - dy * unitLength p / 600 - (-dy) * unitLength p / 600 = p.ylim.2
    ring
  ext
  · rfl
  · rfl
  · rfl
  · exact hx1
  · exact hx2
  · exact hy1
  · exact hy2

/-- C3: pan is a pure translation: both `xlim` endpoints shift by
`dx * sqrt(area) / 600`, both `ylim` endpoints by the corresponding
`dy`-scaled amount `-dy * sqrt(area) / 600`, the interval widths are
unchanged, and panning again with the equal-and-opposite cursor delta
restores the original viewport exactly (real arithmetic). -/
theorem pan_translation (p : ParamsStruct) (dx dy : ℝ)
    (hx : p.xlim.1 < p.xlim.2) (hy : p.ylim.1 < p.ylim.2) :
    (pan p dx dy).xlim.1 = p.xlim.1 + dx * unitLength p / 600 ∧
    (pan p dx dy).xlim.2 = p.xlim.2 + dx * unitLength p / 600 ∧
    (pan p dx dy).ylim.1 = p.ylim.1 - dy * unitLength p / 600 ∧
    (pan p dx dy).ylim.2 = p.ylim.2 - dy * unitLength p / 600 ∧
    (pan p dx dy).xlim.2 - (pan p dx dy).xlim.1 = p.xlim.2 - p.xlim.1 ∧
    (pan p dx dy).ylim.2 - (pan p dx dy).ylim.1 = p.ylim.2 - p.ylim.1 ∧
    pan (pan p dx dy) (-dx) (-dy) = p := by
  refine ⟨rfl, rfl, rfl, rfl, ?_, ?_, pan_pan_inverse p dx dy⟩
  · show p.xlim.2 + dx * unitLength p / 600 - (p.xlim.1 + dx * unitLength p / 600) =
        p.xlim.2 - p.xlim.1
    ring
  · show p.ylim.2 - dy * unitLength p / 600 - (p.ylim.1 - dy * unitLength p / 600) =
        p.ylim.2 - p.ylim.1
    ring

theorem pan_translation_witness :
    (defaultParams.xlim.1 < defaultParams.xlim.2 ∧
     defaultParams.ylim.1 < defaultParams.ylim.2) ∧
    pan (pan defaultParams 7 (-3)) (-7) (-(-3)) = defaultParams := by
  have hx : defaultParams.xlim.1 < defaultParams.xlim.2 := by norm_num [defaultParams]
  have hy : defaultParams.ylim.1 < defaultParams.ylim.2 := by norm_num [defaultParams]
  exact ⟨⟨hx, hy⟩, (pan_translation defaultParams 7 (-3) hx hy).2.2.2.2.2.2⟩

theorem unitLength_default : unitLength defaultParams = 2 := by
  have h4 : surfArea defaultParams = 4 := by
    show ((1 : ℝ) - (-1)) * (1 - (-1)) = 4
    norm_num
  rw [unitLength, h4, show (4 : ℝ) = 2 ^ 2 by norm_num,
    Real.sqrt_sq (by norm_num : (0 : ℝ) ≤ 2)]

/-- C1 counterexample: from the valid default viewport
`xlim = (-1, 1)`, `ylim = (-1, 1)`, a single zoom update with cursor delta
`dy = -600` produces `xlim = (1, -1)` and `ylim = (1, -1)`: an inverted
viewport, so the interactive pan/zoom updates do not always preserve
`xmin < xmax ∧ ymin < ymax`. -/
theorem zoom_reaches_inverted_viewport :
    defaultParams.xlim.1 < defaultParams.xlim.2 ∧
    defaultParams.ylim.1 < defaultParams.ylim.2 ∧
    (zoom defaultParams (-600)).xlim = (1, -1) ∧
    (zoom defaultParams (-600)).ylim = (1, -1) ∧
    ¬ (zoom defaultParams (-600)).xlim.1 < (zoom defaultParams (-600)).xlim.2 := by
  have hU := unitLength_default
  have hxl : defaultParams.xlim = (-1, 1) := rfl
  have hyl : defaultParams.ylim = (-1, 1) := rfl
  have hzx : (zoom defaultParams (-600)).xlim = (1, -1) := by
    show (defaultParams.xlim.1 - (-600) * unitLength defaultParams / 600,
          defaultParams.xlim.2 + (-600) * unitLength defaultParams / 600) = (1, -1)
    rw [hU, hxl]
    norm_num
  have hzy : (zoom defaultParams (-600)).ylim = (1, -1) := by
    show (defaultParams.ylim.1 - (-600) * unitLength defaultParams / 600,
          defaultParams.ylim.2 + (-600) * unitLength defaultParams / 600) = (1, -1)
    rw [hU, hyl]
    norm_num
  refine ⟨by norm_num [defaultParams], by norm_num [defaultParams], hzx, hzy, ?_⟩
  rw [hzx]
  norm_num

/-- C1 amended: every pan update preserves `xmin < xmax ∧ ymin < ymax`, and
a zoom update preserves it whenever `dy ≥ 0` (zooming out); for negative
`dy` (zooming in) the intervals contract by `2*dy*sqrt(area)/600` and
nothing clamps this, so a sufficiently negative `dy` reaches a zero-area or
inverted viewport — the known gap the spec records in its design notes. -/
theorem pan_zoom_validity_amended (p : ParamsStruct)
    (hx : p.xlim.1 < p.xlim.2) (hy : p.ylim.1 < p.ylim.2) :
    (∀ dx dy, (pan p dx dy).xlim.1 < (pan p dx dy).xlim.2 ∧
              (pan p dx dy).ylim.1 < (pan p dx dy).ylim.2) ∧
    (∀ dy, 0 ≤ dy → (zoom p dy).xlim.1 < (zoom p dy).xlim.2 ∧
                    (zoom p dy).ylim.1 < (zoom p dy).ylim.2) := by
  constructor
  · intro dx dy
    constructor
    · show p.xlim.1 + dx * unitLength p / 600 < p.xlim.2 + dx * unitLength p / 600
      linarith
    · show p.ylim.1 - dy * unitLength p / 600 < p.ylim.2 - dy * unitLength p / 600
      linarith
  · intro dy hdy
    have h0 : 0 ≤ unitLength p := Real.sqrt_nonneg _
    have hs : 0 ≤ dy * unitLength p / 600 :=
      div_nonneg (mul_nonneg hdy h0) (by norm_num)
    constructor
    · show p.xlim.1 - dy * unitLength p / 600 < p.xlim.2 + dy * unitLength p / 600
      linarith
    · show p.ylim.1 - dy * unitLength p / 600 < p.ylim.2 + dy * unitLength p / 600
      linarith

theorem pan_zoom_validity_amended_witness :
    (defaultParams.xlim.1 < defaultParams.xlim.2 ∧
     defaultParams.ylim.1 < defaultParams.ylim.2) ∧
    (∀ dx dy, (pan defaultParams dx dy).xlim.1 < (pan defaultParams dx dy).xlim.2 ∧
              (pan defaultParams dx dy).ylim.1 < (pan defaultParams dx dy).ylim.2) := by
  have hx : defaultParams.xlim.1 < defaultParams.xlim.2 := by norm_num [defaultParams]
  have hy : defaultParams.ylim.1 < defaultParams.ylim.2 := by norm_num [defaultParams]
  exact ⟨⟨hx, hy⟩, (pan_zoom_validity_amended defaultParams hx hy).1⟩

/-- C4 counterexample: with the code's cursor delta `dy` (computed as
`oldMouseY - mouseY`), a positive `dy` does not narrow the intervals: from
the default viewport, the zoom update with `dy = 600` takes `xlim` from
width 2 to width 6 — it widens. -/
theorem zoom_positive_dy_does_not_narrow :
    (zoom defaultParams 600).xlim.2 - (zoom defaultParams 600).xlim.1 = 6 ∧
    defaultParams.xlim.2 - defaultParams.xlim.1 = 2 ∧
    ¬ (zoom defaultParams 600).xlim.2 - (zoom defaultParams 600).xlim.1 <
        defaultParams.xlim.2 - defaultParams.xlim.1 := by
  have hU := unitLength_default
  have hxl : defaultParams.xlim = (-1, 1) := rfl
  have hw : (zoom defaultParams 600).xlim.2 - (zoom defaultParams 600).xlim.1 = 6 := by
    show defaultParams.xlim.2 + 600 * unitLength defaultParams / 600 -
        (defaultParams.xlim.1 - 600 * unitLength defaultParams / 600) = 6
    rw [hU, hxl]
    norm_num
  refine ⟨hw, by rw [hxl]; norm_num, ?_⟩
  rw [hw, hxl]
  norm_num

/-- C4 amended: the zoom update moves every endpoint by
`dy * sqrt(area) / 600` outward, so both interval midpoints are unchanged
(the expansion/contraction is symmetric about the centers); for a valid
viewport a positive cursor delta `dy` (as the code computes it,
`oldMouseY - mouseY`) strictly widens both intervals (zoom out), and a
negative `dy` strictly narrows them (zoom in). -/
theorem zoom_symmetric_amended (p : ParamsStruct) (dy : ℝ)
    (hx : p.xlim.1 < p.xlim.2) (hy : p.ylim.1 < p.ylim.2) :
    (zoom p dy).xlim.1 + (zoom p dy).xlim.2 = p.xlim.1 + p.xlim.2 ∧
    (zoom p dy).ylim.1 + (zoom p dy).ylim.2 = p.ylim.1 + p.ylim.2 ∧
    (zoom p dy).xlim.1 = p.xlim.1 - dy * unitLength p / 600 ∧
    (zoom p dy).xlim.2 = p.xlim.2 + dy * unitLength p / 600 ∧
    (zoom p dy).ylim.1 = p.ylim.1 - dy * unitLength p / 600 ∧
    (zoom p dy).ylim.2 = p.ylim.2 + dy * unitLength p / 600 ∧
    (0 < dy →
      p.xlim.2 - p.xlim.1 < (zoom p dy).xlim.2 - (zoom p dy).xlim.1 ∧
      p.ylim.2 - p.ylim.1 < (zoom p dy).ylim.2 - (zoom p dy).ylim.1) ∧
    (dy < 0 →
      (zoom p dy).xlim.2 - (zoom p dy).xlim.1 < p.xlim.2 - p.xlim.1 ∧
      (zoom p dy).ylim.2 - (zoom p dy).ylim.1 < p.ylim.2 - p.ylim.1) := by
  have hUpos : 0 < unitLength p := by
    have harea : 0 < surfArea p := mul_pos (by linarith) (by linarith)
    exact Real.sqrt_pos.mpr harea
  have hwx : (zoom p dy).xlim.2 - (zoom p dy).xlim.1 =
      p.xlim.2 - p.xlim.1 + 2 * (dy * unitLength p / 600) := by
    show p.xlim.2 + dy * unitLength p / 600 - (p.xlim.1 - dy * unitLength p / 600) = _
    ring
  have hwy : (zoom p dy).ylim.2 - (zoom p dy).ylim.1 =
      p.ylim.2 - p.ylim.1 + 2 * (dy * unitLength p / 600) := by
    show p.ylim.2 + dy * unitLength p / 600 - (p.ylim.1 - dy * unitLength p / 600) = _
    ring
  refine ⟨?_, ?_, rfl, rfl, rfl, rfl, ?_, ?_⟩
  · show p.xlim.1 - dy * unitLength p / 600 + (p.xlim.2 + dy * unitLength p / 600) = _
    ring
  · show p.ylim.1 - dy * unitLength p / 600 + (p.ylim.2 + dy * unitLength p / 600) = _
    ring
  · intro hdy
    have hstep : 0 < dy * unitLength p / 600 :=
      div_pos (mul_pos hdy hUpos) (by norm_num)
    rw [hwx, hwy]
    constructor <;> linarith
  · intro hdy
    have hstep : dy * unitLength p / 600 < 0 :=
      div_neg_of_neg_of_pos (mul_neg_of_neg_of_pos hdy hUpos) (by norm_num)
    rw [hwx, hwy]
    constructor <;> linarith

theorem zoom_symmetric_amended_witness :
    (defaultParams.xlim.1 < defaultParams.xlim.2 ∧
     defaultParams.ylim.1 < defaultParams.ylim.2) ∧
    (zoom defaultParams 1).xlim.1 + (zoom defaultParams 1).xlim.2 =
      defaultParams.xlim.1 + defaultParams.xlim.2 := by
  have hx : defaultParams.xlim.1 < defaultParams.xlim.2 := by norm_num [defaultParams]
  have hy : defaultParams.ylim.1 < defaultParams.ylim.2 := by norm_num [defaultParams]
  exact ⟨⟨hx, hy⟩, (zoom_symmetric_amended defaultParams 1 hx hy).1⟩

/-- C5 counterexample: `Newton 0` does take the validation-error path with
exit diagnostic "Number of roots must be greater than zero.", but no usage
summary is written on this path: the stderr output is exactly the
diagnostic line, and no line of `usage` appears in it. -/
theorem newton_zero_roots_no_usage_summary :
    (parse_args (fun _ => 0) ["prog", "Newton", "0"]).stderrLines =
      ["Number of roots must be greater than zero."] ∧
    ∀ l ∈ usage "prog",
      l ∉ (parse_args (fun _ => 0) ["prog", "Newton", "0"]).stderrLines := by
  have hn : istreq_eq "Newton" "Newton" = true := by decide
  have h0 : atoiM "0" < 1 := by decide
  have hout : (parse_args (fun _ => 0) ["prog", "Newton", "0"]).stderrLines =
      ["Number of roots must be greater than zero."] := by
    simp [parse_args, hn, h0]
  refine ⟨hout, ?_⟩
  intro l hl
  rw [hout]
  simp only [usage, List.mem_cons, List.mem_singleton, List.not_mem_nil, or_false] at hl
  rcases hl with h | h | h | h | h | h | h <;> subst h <;> decide

/-- C5 amended: invoking the program as `Newton r` with any argument whose
`atoi` value is below 1 (so any integer `r ≤ 0`, including `0` and `-1`)
takes the validation-error path, not a crash: the diagnostic
"Number of roots must be greater than zero." is written to standard error
(without a usage summary), `parse_args` returns `INVALID`, and `main` exits
with code `-1` before any initialization or rendering, in every
environment. -/
theorem newton_nonpositive_roots_amended (atof : String → ℝ) (s : String)
    (env : MainEnv) (h : atoiM s < 1) :
    (parse_args atof ["prog", "Newton", s]).type = FractalType.INVALID ∧
    (parse_args atof ["prog", "Newton", s]).stderrLines =
      ["Number of roots must be greater than zero."] ∧
    mainModel atof ["prog", "Newton", s] env =
      (MainOutcome.earlyExit (-1), ["Number of roots must be greater than zero."]) ∧
    mainExitCode (mainModel atof ["prog", "Newton", s] env).1 = -1 := by
  have hn : istreq_eq "Newton" "Newton" = true := by decide
  have htype : (parse_args atof ["prog", "Newton", s]).type = FractalType.INVALID := by
    simp [parse_args, hn, h]
  have hlines : (parse_args atof ["prog", "Newton", s]).stderrLines =
      ["Number of roots must be greater than zero."] := by
    simp [parse_args, hn, h]
  have hmain : mainModel atof ["prog", "Newton", s] env =
      (MainOutcome.earlyExit (-1), ["Number of roots must be greater than zero."]) := by
    simp [mainModel, htype, hlines]
  exact ⟨htype, hlines, hmain, by rw [hmain]; rfl⟩

theorem newton_nonpositive_roots_amended_witness :
    (atoiM "0" < 1 ∧
      mainExitCode
        ((mainModel (fun _ => 0) ["prog", "Newton", "0"]
          ⟨true, true, true, true, true, true, true, true, true, true, ""⟩).1) = -1) ∧
    (atoiM "-1" < 1 ∧
      mainExitCode
        ((mainModel (fun _ => 0) ["prog", "Newton", "-1"]
          ⟨true, true, true, true, true, true, true, true, true, true, ""⟩).1) = -1) :=
  ⟨⟨by decide,
    (newton_nonpositive_roots_amended (fun _ => 0) "0"
      ⟨true, true, true, true, true, true, true, true, true, true, ""⟩
      (by decide)).2.2.2⟩,
   ⟨by decide,
    (newton_nonpositive_roots_amended (fun _ => 0) "-1"
      ⟨true, true, true, true, true, true, true, true, true, true, ""⟩
      (by decide)).2.2.2⟩⟩

/-- C2: the GLAD-initialization failure contradicts the claim: when
`gladLoadGLLoader` fails and every other startup step succeeds, `main`
prints "Cannot initialize GLAD." but — the `if` body containing no
`return` — continues, enters the render loop, and a normal close then
yields exit code 0 rather than a negative code. -/
theorem glad_failure_enters_render_loop :
    (mainModel (fun _ => 0) ["prog", "Mandelbrot"]
        ⟨true, true, false, true, true, true, true, true, true, true, ""⟩).1 =
      MainOutcome.renderLoop ∧
    (mainModel (fun _ => 0) ["prog", "Mandelbrot"]
        ⟨true, true, false, true, true, true, true, true, true, true, ""⟩).2 =
      ["Cannot initialize GLAD."] ∧
    mainExitCode
      ((mainModel (fun _ => 0) ["prog", "Mandelbrot"]
        ⟨true, true, false, true, true, true, true, true, true, true, ""⟩).1) = 0 := by
  have h1 : istreq_eq "Mandelbrot" "Newton" = false := by decide
  have h2 : istreq_eq "Mandelbrot" "Julia" = false := by decide
  have h3 : istreq_eq "Mandelbrot" "Mandelbrot" = true := by decide
  have hp : parse_args (fun _ => (0 : ℝ)) ["prog", "Mandelbrot"] =
      ⟨.MANDELBROT, { defaultParams with xlim := (-2, 1), ylim := (-1.5, 1.5) }, []⟩ := by
    simp [parse_args, h1, h2, h3]
  refine ⟨?_, ?_, ?_⟩ <;> simp [mainModel, hp, mainExitCode]

theorem cubeRootPow (x : ℝ) (k : ℕ) (hx : x = 2 * Real.pi * ((k : ℝ) / 3)) :
    ((Real.cos x : ℂ) + (Real.sin x : ℂ) * Complex.I) ^ 3 = 1 := by
  have hz : ((Real.cos x : ℂ) + (Real.sin x : ℂ) * Complex.I) =
      Complex.exp ((x : ℂ) * Complex.I) := by
    rw [Complex.exp_mul_I, Complex.ofReal_cos, Complex.ofReal_sin]
  rw [hz, ← Complex.exp_nat_mul]
  have h3 : ((3 : ℕ) : ℂ) * ((x : ℂ) * Complex.I) =
      (k : ℂ) * (2 * (Real.pi : ℂ) * Complex.I) := by
    rw [hx]
    push_cast
    ring
  rw [h3]
  exact Complex.exp_nat_mul_two_pi_mul_I k

/-- C7: for every Newton root count `n ≥ 1` the configured root table is
exactly `root_k = (cos(2πk/n), sin(2πk/n))` for `k = 0..n-1` (n roots
evenly spaced on the unit circle); the default configuration (no explicit
count) keeps `nroots = 3`, and the three resulting roots, read as complex
numbers, are three pairwise distinct solutions of `z^3 = 1` — the cube
roots of unity. -/
theorem newton_roots_unit_circle :
    (∀ n k : ℕ, 1 ≤ n → k < n →
        (newtonRoots n)[k]? =
          some (Real.cos (2 * Real.pi * k / n), Real.sin (2 * Real.pi * k / n))) ∧
    defaultParams.nroots = 3 ∧
    (parse_args (fun _ => 0) ["prog", "Newton"]).type = FractalType.NEWTON ∧
    (parse_args (fun _ => 0) ["prog", "Newton"]).params.nroots = 3 ∧
    (newtonRoots 3).length = 3 ∧
    (∀ p ∈ newtonRoots 3, ((p.1 : ℂ) + (p.2 : ℂ) * Complex.I) ^ 3 = 1) ∧
    (newtonRoots 3).Nodup := by
  have hNewton : istreq_eq "Newton" "Newton" = true := by decide
  have hr3 : List.range 3 = [0, 1, 2] := rfl
  have hne : Real.sqrt 3 / 2 ≠ 0 := by positivity
  have hs0 : Real.sin (2 * Real.pi * (((0 : ℕ) : ℝ) / ((3 : ℕ) : ℝ))) = 0 := by
    have hx : 2 * Real.pi * (((0 : ℕ) : ℝ) / ((3 : ℕ) : ℝ)) = 0 := by
      push_cast
      ring
    rw [hx, Real.sin_zero]
  have hs1 : Real.sin (2 * Real.pi * (((1 : ℕ) : ℝ) / ((3 : ℕ) : ℝ))) =
      Real.sqrt 3 / 2 := by
    have hx : 2 * Real.pi * (((1 : ℕ) : ℝ) / ((3 : ℕ) : ℝ)) =
        Real.pi - Real.pi / 3 := by
      push_cast
      ring
    rw [hx, Real.sin_pi_sub, Real.sin_pi_div_three]
  have hs2 : Real.sin (2 * Real.pi * (((2 : ℕ) : ℝ) / ((3 : ℕ) : ℝ))) =
      -(Real.sqrt 3 / 2) := by
    have hx : 2 * Real.pi * (((2 : ℕ) : ℝ) / ((3 : ℕ) : ℝ)) =
        Real.pi / 3 + Real.pi := by
      push_cast
      ring
    rw [hx, Real.sin_add_pi, Real.sin_pi_div_three]
  refine ⟨?_, ?_, ?_, ?_, ?_, ?_, ?_⟩
  · intro n k hn hk
    have hrg : (List.range n)[k]? = some k := List.getElem?_range hk
    rw [newtonRoots, List.getElem?_map, hrg]
    show some (Real.cos (2 * Real.pi * ((k : ℝ) / (n : ℝ))),
               Real.sin (2 * Real.pi * ((k : ℝ) / (n : ℝ)))) = _
    simp only [mul_div_assoc]
  · rfl
  · simp [parse_args, hNewton]
  · simp [parse_args, hNewton, defaultParams]
  · rfl
  · intro p hp
    rw [newtonRoots, hr3] at hp
    simp only [List.map_cons, List.map_nil, List.mem_cons, List.not_mem_nil,
      or_false] at hp
    rcases hp with h | h | h <;> subst h
    · exact cubeRootPow _ 0 (by push_cast; ring)
    · exact cubeRootPow _ 1 (by push_cast; ring)
    · exact cubeRootPow _ 2 (by push_cast; ring)
  · rw [newtonRoots, hr3]
    simp only [List.map_cons, List.map_nil, List.nodup_cons, List.mem_cons,
      List.not_mem_nil, or_false, List.nodup_nil, and_true, not_or]
    refine ⟨⟨?_, ?_⟩, ?_, not_false⟩
    · intro h
      have hsnd := congrArg Prod.snd h
      simp only at hsnd
      rw [hs0, hs1] at hsnd
      exact hne hsnd.symm
    · intro h
      have hsnd := congrArg Prod.snd h
      simp only at hsnd
      rw [hs0, hs2] at hsnd
      exact hne (by linarith)
    · intro h
      have hsnd := congrArg Prod.snd h
      simp only at hsnd
      rw [hs1, hs2] at hsnd
      exact hne (by linarith)

theorem newton_roots_unit_circle_witness :
    1 ≤ 3 ∧ 1 < 3 ∧
    (newtonRoots 3)[1]? =
      some (Real.cos (2 * Real.pi * (1 : ℕ) / (3 : ℕ)),
            Real.sin (2 * Real.pi * (1 : ℕ) / (3 : ℕ))) :=
  ⟨by decide, by decide, newton_roots_unit_circle.1 3 1 (by decide) (by decide)⟩

theorem foldl_update_notin {β : Type} (idx val : β → ℕ) :
    ∀ (l : List β) (buf : ℕ → ℕ) (q : ℕ), (∀ t ∈ l, idx t ≠ q) →
      (l.foldl (fun b t => Function.update b (idx t) (val t)) buf) q = buf q := by
  intro l
  induction l with
  | nil =>
    intro buf q _
    rfl
  | cons a l ih =>
    intro buf q h
    have ha : idx a ≠ q := h a (List.mem_cons_self a l)
    have hrest : ∀ t ∈ l, idx t ≠ q := fun t ht => h t (List.mem_cons_of_mem a ht)
    simp only [List.foldl_cons]
    rw [ih _ q hrest, Function.update_noteq (Ne.symm ha)]

theorem foldl_update_unique {β : Type} (idx val : β → ℕ) :
    ∀ (l : List β) (t : β), t ∈ l →
      (∀ u ∈ l, idx u = idx t → u = t) →
      ∀ buf : ℕ → ℕ,
        (l.foldl (fun b u => Function.update b (idx u) (val u)) buf) (idx t) = val t := by
  intro l
  induction l with
  | nil =>
    intro t ht
    exact absurd ht (List.not_mem_nil t)
  | cons a l ih =>
    intro t ht huniq buf
    simp only [List.foldl_cons]
    by_cases hmem : t ∈ l
    · exact ih t hmem (fun u hu he => huniq u (List.mem_cons_of_mem a hu) he) _
    · have hta : t = a := by
        rcases List.mem_cons.mp ht with h | h
        · exact h
        · exact absurd h hmem
      subst hta
      have hrest : ∀ u ∈ l, idx u ≠ idx t := by
        intro u hu he
        exact hmem ((huniq u (List.mem_cons_of_mem t hu) he) ▸ hu)
      rw [foldl_update_notin idx val l _ (idx t) hrest, Function.update_same]

theorem mem_allTriples {N : ℕ} {t : ℕ × ℕ × ℕ} :
    t ∈ allTriples N ↔ t.1 < N ∧ t.2.1 < N ∧ t.2.2 < 3 := by
  obtain ⟨i, j, k⟩ := t
  simp only [allTriples, List.mem_flatMap, List.mem_map, List.mem_range, Prod.mk.injEq]
  constructor
  · rintro ⟨i', hi', j', hj', k', hk', hik, hjk, hkk⟩
    subst hik
    subst hjk
    subst hkk
    exact ⟨hi', hj', hk'⟩
  · rintro ⟨hi, hj, hk⟩
    exact ⟨i, hi, j, hj, k, hk, rfl, rfl, rfl⟩

theorem mul_add_lt_cancel {m a b r s : ℕ} (hr : r < m) (hs : s < m)
    (h : a * m + r = b * m + s) : a = b ∧ r = s := by
  have hm : 0 < m := Nat.lt_of_le_of_lt (Nat.zero_le r) hr
  have ha : (a * m + r) / m = a := by
    rw [Nat.mul_comm a m, Nat.mul_add_div hm, Nat.div_eq_of_lt hr, Nat.add_zero]
  have hb : (b * m + s) / m = b := by
    rw [Nat.mul_comm b m, Nat.mul_add_div hm, Nat.div_eq_of_lt hs, Nat.add_zero]
  have hab : a = b := by rw [← ha, ← hb, h]
  refine ⟨hab, ?_⟩
  subst hab
  exact Nat.add_left_cancel h

theorem flatIdx_inj {N : ℕ} {t u : ℕ × ℕ × ℕ}
    (ht : t.1 < N ∧ t.2.1 < N ∧ t.2.2 < 3) (hu : u.1 < N ∧ u.2.1 < N ∧ u.2.2 < 3)
    (h : flatIdx N t = flatIdx N u) : t = u := by
  obtain ⟨i, j, k⟩ := t
  obtain ⟨i', j', k'⟩ := u
  obtain ⟨hi, hj, hk⟩ := ht
  obtain ⟨hi', hj', hk'⟩ := hu
  dsimp only at hi hj hk hi' hj' hk'
  simp only [flatIdx] at h
  rw [Nat.add_assoc, Nat.add_assoc] at h
  have hlt : j * 3 + k < N * 3 := by omega
  have hlt' : j' * 3 + k' < N * 3 := by omega
  obtain ⟨h1, h2⟩ := mul_add_lt_cancel hlt hlt' h
  have hii : i = i' := by omega
  have hjj : j = j' := by omega
  have hkk : k = k' := by omega
  rw [hii, hjj, hkk]

theorem cImage_flip (N : ℕ) (fimg : ℕ → ℚ) (r c ch : ℕ)
    (hr : r < N) (hc : c < N) (hch : ch < 3) :
    cImageOf N fimg (r * (N * 3) + c * 3 + ch) =
      toByte (fimg ((N - 1 - r) * (N * 4) + c * 4 + ch)) := by
  have hmem : ((N - 1 - r, c, ch) : ℕ × ℕ × ℕ) ∈ allTriples N := by
    rw [mem_allTriples]
    refine ⟨?_, ?_, ?_⟩
    · show N - 1 - r < N
      omega
    · exact hc
    · exact hch
  have hidx : flatIdx N (N - 1 - r, c, ch) = r * (N * 3) + c * 3 + ch := by
    simp only [flatIdx]
    have hNr : N - (N - 1 - r) - 1 = r := by omega
    rw [hNr]
  have huniq : ∀ u ∈ allTriples N, flatIdx N u = flatIdx N (N - 1 - r, c, ch) →
      u = (N - 1 - r, c, ch) := by
    intro u hu he
    exact flatIdx_inj (mem_allTriples.mp hu) (mem_allTriples.mp hmem) he
  have hfold := foldl_update_unique (flatIdx N) (fun u => toByte (fimg (texIdx N u)))
    (allTriples N) (N - 1 - r, c, ch) hmem huniq (fun _ => 0)
  rw [cImageOf, ← hidx]
  exact hfold

/-- C9: every successful export (the buffer is already allocated, or the
allocation succeeds) emits exactly one PNG write named
`Screenshot<pad3 frame>.png` — the zero-padded sequence number starting at
`000` — increments the sequence counter by one, writes a square
`TEX_SIZE × TEX_SIZE` image with 3 channels, and the pixel data is
vertically flipped: output row `r` is taken from texture row
`TEX_SIZE - 1 - r` (channel `ch` of column `c` of output row `r` is the
byte conversion of float channel `ch` of column `c` of texture row
`TEX_SIZE - 1 - r`). -/
theorem export_success_spec (N frame : ℕ) (fimg : ℕ → ℚ) (alloctd allocOk : Bool)
    (h : alloctd = true ∨ allocOk = true) :
    (exportTex N ⟨frame, alloctd⟩ allocOk fimg).1.curFrame = frame + 1 ∧
    (exportTex N ⟨frame, alloctd⟩ allocOk fimg).2 =
      [ExportEvent.pngWrite ("Screenshot" ++ pad3 frame ++ ".png") N N 3
        (cImageOf N fimg)] ∧
    pad3 0 = "000" ∧ pad3 1 = "001" ∧ pad3 12 = "012" ∧
    (∀ r c ch, r < N → c < N → ch < 3 →
      cImageOf N fimg (r * (N * 3) + c * 3 + ch) =
        toByte (fimg ((N - 1 - r) * (N * 4) + c * 4 + ch))) := by
  have hcond : ¬((⟨frame, alloctd⟩ : ExportState).allocated = false ∧ allocOk = false) := by
    rcases h with h | h <;> simp [h]
  refine ⟨?_, ?_, by decide, by decide, by decide,
    fun r c ch hr hc hch => cImage_flip N fimg r c ch hr hc hch⟩
  · simp [exportTex, hcond]
  · simp [exportTex, hcond]

theorem export_success_spec_witness :
    ((true : Bool) = true ∨ (true : Bool) = true) ∧
    (exportTex 1 ⟨0, true⟩ true (fun _ => 0)).1.curFrame = 0 + 1 :=
  ⟨Or.inl rfl, (export_success_spec 1 0 (fun _ => 0) true true (Or.inl rfl)).1⟩
